import Mathlib

/-!
Verification of the corners-finder core of corners_sportmonks_streamlit.py.

The Python module is shallowly embedded here.  JSON payloads (Python dicts,
lists, strings, numbers, booleans, None) are modelled by the inductive type
Json; Python attribute and key accesses that can raise are modelled in
Except PyErr; the HTTP boundary (requests.get together with the response-ok
check and body parsing performed by SportmonksCornersFinder._get) is
abstracted as an environment function from a Request (url plus query
parameters) to Except PyErr Json, where an error models a raised exception
(non-success status turned into RuntimeError, or any transport error).
-/

/-- Python-style JSON value: None, bool, int, str, list or dict. -/
inductive Json where
  | null : Json
  | bool : Bool → Json
  | int : Int → Json
  | str : String → Json
  | list : List Json → Json
  | obj : List (String × Json) → Json

/-- The Python exception kinds the embedded code can raise. -/
inductive PyErr where
  | attributeError : PyErr
  | typeError : PyErr
  | keyError : PyErr
  | valueError : PyErr
  | runtimeError : PyErr
deriving DecidableEq

/-- Explicit bind on Except PyErr, used to keep the raising control flow of
the Python code visible. -/
def ebind {α β : Type} (x : Except PyErr α) (f : α → Except PyErr β) : Except PyErr β :=
  match x with
  | .error e => .error e
  | .ok a => f a

/-- Python truthiness of a JSON value: None, False, 0, empty string, empty
list and empty dict are falsy, everything else is truthy. -/
def truthy : Json → Bool
  | .null => false
  | .bool b => b
  | .int n => n != 0
  | .str s => s != ""
  | .list xs => !xs.isEmpty
  | .obj kvs => !kvs.isEmpty

/-- First-match association lookup in a JSON object (Python dict keys are
unique, so first match is the match). -/
def jlookup : List (String × Json) → String → Option Json
  | [], _ => none
  | (k, v) :: rest, key => if k = key then some v else jlookup rest key

/-- Python d.get(k): value or None on a dict, AttributeError otherwise. -/
def pyGet : Json → String → Except PyErr Json
  | .obj kvs, k => .ok ((jlookup kvs k).getD .null)
  | _, _ => .error .attributeError

/-- Python d.get(k, default): value or the default on a dict, AttributeError
otherwise. -/
def pyGetD : Json → String → Json → Except PyErr Json
  | .obj kvs, k, dflt => .ok ((jlookup kvs k).getD dflt)
  | _, _, _ => .error .attributeError

/-- Python d[k] on a dict: value, or KeyError when the key is absent;
TypeError on non-dicts (the only subscripted values in this module are the
market dicts). -/
def pySub : Json → String → Except PyErr Json
  | .obj kvs, k =>
    match jlookup kvs k with
    | some v => .ok v
    | none => .error .keyError
  | _, _ => .error .typeError

/-- Python x or y on already-evaluated JSON values. -/
def pyOr (x y : Json) : Json :=
  if truthy x then x else y

/-- Python iteration over a JSON value: a list yields its elements, a dict
its keys, a string its characters; other values raise TypeError. -/
def pyIter : Json → Except PyErr (List Json)
  | .list xs => .ok xs
  | .obj kvs => .ok (kvs.map (fun kv => Json.str kv.1))
  | .str s => .ok (s.toList.map (fun c => Json.str c.toString))
  | _ => .error .typeError

/-- Lowercasing a string character by character with Char.toLower, the same
transformation as String.toLower but structurally recursive so that
concrete instances evaluate inside proofs. -/
def asciiLower (s : String) : String :=
  String.mk (s.data.map Char.toLower)

/-- Python v.lower(): lowercases a string, AttributeError on non-strings. -/
def pyLowerJ : Json → Except PyErr String
  | .str s => .ok (asciiLower s)
  | _ => .error .attributeError

/-- Python f-string conversion of a JSON value as used when building URLs.
Only None, booleans, ints and strings appear in URLs in this development;
container reprs are abbreviated and no theorem depends on those branches. -/
def pyStr : Json → String
  | .null => "None"
  | .bool true => "True"
  | .bool false => "False"
  | .int n => toString n
  | .str s => s
  | .list _ => "<list>"
  | .obj _ => "<dict>"

/-- Whether needle starts the character list hay. -/
def startsWithChars : List Char → List Char → Bool
  | [], _ => true
  | _ :: _, [] => false
  | n :: ns, h :: hs => n == h && startsWithChars ns hs

/-- Whether needle occurs inside the character list hay. -/
def occursInChars (needle : List Char) : List Char → Bool
  | [] => startsWithChars needle []
  | h :: hs => startsWithChars needle (h :: hs) || occursInChars needle hs

/-- Python substring containment: needle in hay. -/
def occursIn (needle hay : String) : Bool :=
  occursInChars needle.toList hay.toList

/-- An outbound HTTP request: url and query parameters. -/
structure Request where
  url : String
  params : List (String × String)

/-- Python dict.setdefault on the parameter list. -/
def setdefault (params : List (String × String)) (k v : String) : List (String × String) :=
  match params.lookup k with
  | some _ => params
  | none => params ++ [(k, v)]

/-- Base URLs from the module. -/
def BASE_URL : String := "https://api.sportmonks.com/v3"

def FOOTBALL_BASE : String := BASE_URL ++ "/football"

def ODDS_BASE : String := BASE_URL ++ "/odds"

/-- SportmonksCornersFinder._get: adds the api_token parameter via
setdefault and performs the request through the environment; a non-success
response (RuntimeError) or transport failure is an error of the
environment. -/
def finderGet (env : Request → Except PyErr Json) (tok : String)
    (url : String) (params : List (String × String)) : Except PyErr Json :=
  env ⟨url, setdefault params "api_token" tok⟩

/-- SportmonksCornersFinder.__init__: raises ValueError on a falsy (empty)
token, stores it otherwise.  The first component is the list of outbound
requests performed during construction, which is empty: the constructor
touches no network. -/
def finderInit (api_token : String) : List Request × Except PyErr String :=
  ([], if api_token = "" then .error .valueError else .ok api_token)

/-- The per-market loop of get_corner_market_ids: keeps markets whose
lowercased name contains the literal substring corner, projecting id, name
and developer_name. -/
def filterCornerMarkets : List Json → Except PyErr (List Json)
  | [] => .ok []
  | m :: rest =>
    ebind (pyGet m "name") (fun nmRaw =>
      ebind (pyLowerJ (pyOr nmRaw (Json.str ""))) (fun nm =>
        if occursIn "corner" nm then
          ebind (pyGet m "id") (fun i =>
            ebind (pyGet m "name") (fun n =>
              ebind (pyGet m "developer_name") (fun d =>
                ebind (filterCornerMarkets rest) (fun tail =>
                  .ok (Json.obj [("id", i), ("name", n), ("developer_name", d)] :: tail)))))
        else
          filterCornerMarkets rest))

/-- SportmonksCornersFinder.get_corner_market_ids. -/
def get_corner_market_ids (env : Request → Except PyErr Json) (tok : String)
    (search_term : String) : Except PyErr (List Json) :=
  ebind (finderGet env tok (ODDS_BASE ++ "/markets/search/" ++ search_term) [])
    (fun data =>
      ebind (pyGetD data "data" (Json.list [])) (fun got =>
        ebind (pyIter (pyOr got (Json.list []))) filterCornerMarkets))

/-- The list comprehension of get_fixtures_by_round_with_odds: keeps the
fixtures whose has_odds attribute is truthy; fx.get raises on non-dict
elements. -/
def filterHasOdds : List Json → Except PyErr (List Json)
  | [] => .ok []
  | fx :: rest =>
    ebind (pyGet fx "has_odds") (fun v =>
      if truthy v then
        ebind (filterHasOdds rest) (fun tail => .ok (fx :: tail))
      else filterHasOdds rest)

/-- SportmonksCornersFinder.get_fixtures_by_round_with_odds. -/
def get_fixtures_by_round_with_odds (env : Request → Except PyErr Json) (tok : String)
    (round_id : Int) : Except PyErr (List Json) :=
  ebind (finderGet env tok (FOOTBALL_BASE ++ "/rounds/" ++ toString round_id)
      [("include", "fixtures.league;fixtures.participants")])
    (fun data =>
      ebind (pyGet data "data") (fun d0 =>
        ebind (pyGet (pyOr d0 (Json.obj [])) "fixtures") (fun fw0 =>
          ebind (pyGetD (pyOr fw0 (Json.obj [])) "data" (Json.list [])) (fun fx0 =>
            ebind (pyIter (pyOr fx0 (Json.list []))) filterHasOdds))))

/-- URL of the per-market pre-match odds endpoint. -/
def oddsUrl (fixture_id m_id : Json) : String :=
  FOOTBALL_BASE ++ "/odds/pre-match/fixtures/" ++ pyStr fixture_id ++ "/markets/" ++ pyStr m_id

/-- The per-market loop of get_corner_odds_for_fixture.  Returns the list of
requests performed together with the accumulated odds lines; a raise stops
the loop.  Python extend iterates its argument, hence pyIter. -/
def oddsLoop (env : Request → Except PyErr Json) (tok : String) (fixture_id : Json) :
    List Json → List Json → List Request × Except PyErr (List Json)
  | [], acc => ([], .ok acc)
  | mid :: rest, acc =>
    let req : Request := ⟨oddsUrl fixture_id mid, [("api_token", tok)]⟩
    match finderGet env tok (oddsUrl fixture_id mid) [] with
    | .error e => ([req], .error e)
    | .ok data =>
      match pyGetD data "data" (Json.list []) with
      | .error e => ([req], .error e)
      | .ok got =>
        let odds_list := pyOr got (Json.list [])
        if truthy odds_list then
          match pyIter odds_list with
          | .error e => ([req], .error e)
          | .ok items =>
            let res := oddsLoop env tok fixture_id rest (acc ++ items)
            (req :: res.1, res.2)
        else
          let res := oddsLoop env tok fixture_id rest acc
          (req :: res.1, res.2)

/-- SportmonksCornersFinder.get_corner_odds_for_fixture, together with the
list of outbound requests it performs. -/
def get_corner_odds_for_fixture (env : Request → Except PyErr Json) (tok : String)
    (fixture_id : Json) (market_ids : List Json) : List Request × Except PyErr (List Json) :=
  if market_ids.isEmpty then ([], .ok [])
  else oddsLoop env tok fixture_id market_ids []

/-- One output row of build_corners_dataframe (Fixture ID, Fecha/hora, Liga,
Local, Visitante, number of corner lines). -/
structure Fila where
  fixture_id : Json
  fecha_hora : Json
  liga : Json
  local_team : Json
  visitante : Json
  lineas : Nat

/-- The market-id list comprehension of build_corners_dataframe:
subscripting each market dict with id. -/
def mkMarketIds : List Json → Except PyErr (List Json)
  | [] => .ok []
  | m :: rest =>
    ebind (pySub m "id") (fun i =>
      ebind (mkMarketIds rest) (fun t => .ok (i :: t)))

/-- The participants loop of build_corners_dataframe: threads the home and
away name accumulators; a participant whose lowered location tag is home or
away overwrites the corresponding accumulator with its name. -/
def participantsFold : List Json → Json → Json → Except PyErr (Json × Json)
  | [], h, a => .ok (h, a)
  | p :: rest, h, a =>
    ebind (pyGet p "meta") (fun metaRaw =>
      ebind (pyGet (pyOr metaRaw (Json.obj [])) "location") (fun locRaw =>
        ebind (pyLowerJ (pyOr locRaw (Json.str ""))) (fun loc =>
          ebind (pyGet p "name") (fun name =>
            if loc = "home" then participantsFold rest name a
            else if loc = "away" then participantsFold rest h name
            else participantsFold rest h a))))

/-- The per-fixture metadata extraction of build_corners_dataframe, in
source order: id, starting_at, league envelope, participants loop, league
name.  None of this is inside the try block. -/
def fixtureMeta (fx : Json) : Except PyErr (Json × Json × Json × Json × Json) :=
  ebind (pyGet fx "id") (fun fid =>
    ebind (pyGet fx "starting_at") (fun sa =>
      ebind (pyGet fx "league") (fun lgRaw =>
        ebind (pyGet (pyOr lgRaw (Json.obj [])) "data") (fun lgData =>
          ebind (pyGet fx "participants") (fun partsRaw =>
            ebind (pyGetD (pyOr partsRaw (Json.obj [])) "data" (Json.list [])) (fun partsD =>
              ebind (pyIter (pyOr partsD (Json.list []))) (fun pl =>
                ebind (participantsFold pl Json.null Json.null) (fun ha =>
                  ebind (pyGet (pyOr lgData (Json.obj [])) "name") (fun league_name =>
                    .ok (fid, sa, league_name, ha.1, ha.2))))))))))

/-- The try-except around the per-fixture odds fetch: any raised exception
is absorbed as an empty odds list. -/
def caughtOdds (env : Request → Except PyErr Json) (tok : String)
    (mids : List Json) (fid : Json) : List Json :=
  match (get_corner_odds_for_fixture env tok fid mids).2 with
  | .ok l => l
  | .error _ => []

/-- The per-fixture body of the main loop of build_corners_dataframe: the
metadata extraction (which can raise), then the guarded odds fetch, then at
most one row, emitted only when the odds list is nonempty. -/
def rowFor (env : Request → Except PyErr Json) (tok : String)
    (mids : List Json) (fx : Json) : Except PyErr (Option Fila) :=
  ebind (fixtureMeta fx) (fun meta =>
    match meta with
    | (fid, sa, ln, hn, an) =>
      let odds := caughtOdds env tok mids fid
      if odds.isEmpty then .ok none
      else .ok (some ⟨fid, sa, ln, hn, an, odds.length⟩))

/-- The main loop of build_corners_dataframe over the fixture list. -/
def build_filas (env : Request → Except PyErr Json) (tok : String) (mids : List Json) :
    List Json → Except PyErr (List Fila)
  | [] => .ok []
  | fx :: rest =>
    ebind (rowFor env tok mids fx) (fun o =>
      ebind (build_filas env tok mids rest) (fun t =>
        .ok (match o with
             | some r => r :: t
             | none => t)))

/-- SportmonksCornersFinder.build_corners_dataframe.  The final
DataFrame.sort_values on the Fecha/hora column is performed by pandas, not
by this module; it is abstracted as the function srt applied to the row
list when it is nonempty (an empty row list yields the empty DataFrame). -/
def build_corners_dataframe (srt : List Fila → List Fila)
    (env : Request → Except PyErr Json) (tok : String)
    (fixtures corner_markets : List Json) : Except PyErr (List Fila) :=
  ebind (mkMarketIds corner_markets) (fun mids =>
    ebind (build_filas env tok mids fixtures) (fun filas =>
      if filas.isEmpty then .ok []
      else .ok (srt filas)))

/-! Basic lemmas about the embedding primitives. -/

@[simp]
theorem ebind_ok {α β : Type} (a : α) (f : α → Except PyErr β) : ebind (.ok a) f = f a := rfl

@[simp]
theorem ebind_err {α β : Type} (e : PyErr) (f : α → Except PyErr β) :
    ebind (.error e) f = .error e := rfl

theorem ebind_ok_iff {α β : Type} (x : Except PyErr α) (f : α → Except PyErr β) (b : β) :
    ebind x f = .ok b ↔ ∃ a, x = .ok a ∧ f a = .ok b := by
  cases x <;> simp [ebind]

/-- The request issued by get_fixtures_by_round_with_odds. -/
def roundReq (tok : String) (round_id : Int) : Request :=
  ⟨FOOTBALL_BASE ++ "/rounds/" ++ toString round_id,
   [("include", "fixtures.league;fixtures.participants"), ("api_token", tok)]⟩

theorem finderGet_round (env : Request → Except PyErr Json) (tok : String) (rid : Int) :
    finderGet env tok (FOOTBALL_BASE ++ "/rounds/" ++ toString rid)
      [("include", "fixtures.league;fixtures.participants")] = env (roundReq tok rid) := rfl

/-- The round response body with the given value in the fixtures slot. -/
def roundBody (f : Json) : Json :=
  Json.obj [("data", Json.obj [("fixtures", f)])]

/-- Whether a JSON value is a dict. -/
def isObjJson : Json → Bool
  | .obj _ => true
  | _ => false

/-- Truthiness of the has_odds entry of a fixture dict, exactly the test the
list comprehension applies. -/
def hasOddsB : Json → Bool
  | .obj kvs => truthy ((jlookup kvs "has_odds").getD .null)
  | _ => false

theorem filterHasOdds_spec (fxs : List Json) (hwf : fxs.all isObjJson = true) :
    filterHasOdds fxs = .ok (fxs.filter hasOddsB) := by
  induction fxs with
  | nil => rfl
  | cons fx rest ih =>
    rw [List.all_cons, Bool.and_eq_true] at hwf
    obtain ⟨h1, h2⟩ := hwf
    cases fx with
    | null => simp [isObjJson] at h1
    | bool b => simp [isObjJson] at h1
    | int n => simp [isObjJson] at h1
    | str s => simp [isObjJson] at h1
    | list xs => simp [isObjJson] at h1
    | obj kvs =>
      by_cases ht : truthy ((jlookup kvs "has_odds").getD .null)
      · simp [filterHasOdds, pyGet, ebind, ht, ih h2, List.filter_cons, hasOddsB]
      · simp [filterHasOdds, pyGet, ebind, ht, ih h2, List.filter_cons, hasOddsB]

theorem pyOr_list_self (xs : List Json) : pyOr (Json.list xs) (Json.list []) = Json.list xs := by
  cases xs <;> simp [pyOr, truthy, List.isEmpty]

/-- C1 sample fixture: one fixture dict with has_odds true. -/
def fx1c : Json := Json.obj [("id", Json.int 1), ("has_odds", Json.bool true)]

/-- Environment answering the round request with the fixtures slot holding a
bare list. -/
def envShapeA : Request → Except PyErr Json :=
  fun _ => .ok (roundBody (Json.list [fx1c]))

/-- Environment answering the round request with the fixtures slot holding a
dict with a data list. -/
def envShapeB : Request → Except PyErr Json :=
  fun _ => .ok (roundBody (Json.obj [("data", Json.list [fx1c])]))

/-- Environment answering the round request with one extra nesting level in
the fixtures slot. -/
def envShapeC : Request → Except PyErr Json :=
  fun _ => .ok (roundBody (Json.obj [("data", Json.obj [("data", Json.list [fx1c])])]))

/-- C1 counterexample: the same logical fixture collection is unwrapped only
in the dict-with-data form; the bare-list form and the doubly nested form
both raise AttributeError instead of returning the same normalized list, so
the unwrapping is not shape-agnostic. -/
theorem c1_counterexample :
    get_fixtures_by_round_with_odds envShapeB "t" 1 = .ok [fx1c] ∧
    get_fixtures_by_round_with_odds envShapeA "t" 1 = .error .attributeError ∧
    get_fixtures_by_round_with_odds envShapeC "t" 1 = .error .attributeError :=
  ⟨rfl, rfl, rfl⟩

/-- C1 amended: for any round response, only the form in which the fixtures
slot is a dict whose data entry is the fixture list is unwrapped (yielding
the has_odds-filtered fixtures); a nonempty bare-list fixtures slot raises
AttributeError, and so does an extra nesting level inside the data entry. -/
theorem c1_amended (envA envB envC : Request → Except PyErr Json) (tok : String) (rid : Int)
    (fxs : List Json)
    (hA : envA (roundReq tok rid) = .ok (roundBody (Json.list fxs)))
    (hB : envB (roundReq tok rid) = .ok (roundBody (Json.obj [("data", Json.list fxs)])))
    (hC : envC (roundReq tok rid) = .ok (roundBody (Json.obj [("data",
        Json.obj [("data", Json.list fxs)])])))
    (hne : fxs ≠ [])
    (hwf : fxs.all isObjJson = true) :
    get_fixtures_by_round_with_odds envB tok rid = .ok (fxs.filter hasOddsB) ∧
    get_fixtures_by_round_with_odds envA tok rid = .error .attributeError ∧
    get_fixtures_by_round_with_odds envC tok rid = .error .attributeError := by
  cases fxs with
  | nil => exact absurd rfl hne
  | cons f fs =>
    refine ⟨?_, ?_, ?_⟩
    · unfold get_fixtures_by_round_with_odds
      rw [finderGet_round, hB]
      simp [roundBody, ebind, pyGet, pyGetD, jlookup, pyOr, truthy, pyIter, List.isEmpty]
      exact filterHasOdds_spec _ hwf
    · unfold get_fixtures_by_round_with_odds
      rw [finderGet_round, hA]
      simp [roundBody, ebind, pyGet, pyGetD, jlookup, pyOr, truthy, pyIter, List.isEmpty]
    · unfold get_fixtures_by_round_with_odds
      rw [finderGet_round, hC]
      simp [roundBody, ebind, pyGet, pyGetD, jlookup, pyOr, truthy, pyIter, List.isEmpty,
        filterHasOdds]

/-- C1 amended, witnessed at the concrete single-fixture collection. -/
theorem c1_amended_witness :
    envShapeA (roundReq "t" 1) = .ok (roundBody (Json.list [fx1c])) ∧
    envShapeB (roundReq "t" 1) = .ok (roundBody (Json.obj [("data", Json.list [fx1c])])) ∧
    envShapeC (roundReq "t" 1) = .ok (roundBody (Json.obj [("data",
        Json.obj [("data", Json.list [fx1c])])])) ∧
    ([fx1c] : List Json) ≠ [] ∧
    [fx1c].all isObjJson = true ∧
    (get_fixtures_by_round_with_odds envShapeB "t" 1 = .ok ([fx1c].filter hasOddsB) ∧
     get_fixtures_by_round_with_odds envShapeA "t" 1 = .error .attributeError ∧
     get_fixtures_by_round_with_odds envShapeC "t" 1 = .error .attributeError) :=
  ⟨rfl, rfl, rfl, by simp, rfl,
   c1_amended envShapeA envShapeB envShapeC "t" 1 [fx1c] rfl rfl rfl (by simp) rfl⟩

/-- C7: constructing the finder with an empty credential raises ValueError
while performing no outbound request, and a non-empty credential constructs
successfully, again with no outbound request. -/
theorem c7_token_validation (tok : String) (h : tok ≠ "") :
    (finderInit "").1 = [] ∧ (finderInit "").2 = .error .valueError ∧
    (finderInit tok).1 = [] ∧ (finderInit tok).2 = .ok tok := by
  refine ⟨rfl, rfl, rfl, ?_⟩
  simp [finderInit, h]

/-- C7 witnessed at the concrete token abc. -/
theorem c7_token_validation_witness :
    ("abc" : String) ≠ "" ∧
    ((finderInit "").1 = [] ∧ (finderInit "").2 = .error .valueError ∧
     (finderInit "abc").1 = [] ∧ (finderInit "abc").2 = .ok "abc") :=
  ⟨by decide, c7_token_validation "abc" (by decide)⟩

/-- C10: for every environment, token and fixture id, fetching corner odds
with an empty market-id list returns the empty odds list and performs no
outbound request at all (the request log is empty). -/
theorem c10_empty_market_ids (env : Request → Except PyErr Json) (tok : String) (fid : Json) :
    get_corner_odds_for_fixture env tok fid [] = ([], .ok []) := rfl

/-- Whether the has_odds entry of a fixture dict is absent, None or a
boolean, the only shapes the upstream flag takes. -/
def hasOddsBoolish : Json → Bool
  | .obj kvs =>
    match jlookup kvs "has_odds" with
    | none => true
    | some .null => true
    | some (.bool _) => true
    | some _ => false
  | _ => false

/-- Whether the has_odds entry of a fixture dict is the boolean true. -/
def hasOddsIsTrue : Json → Bool
  | .obj kvs =>
    match jlookup kvs "has_odds" with
    | some (.bool true) => true
    | _ => false
  | _ => false

theorem hasOddsBoolish_isObj (fx : Json) (h : hasOddsBoolish fx = true) :
    isObjJson fx = true := by
  cases fx <;> simp_all [hasOddsBoolish, isObjJson]

theorem hasOddsBoolish_eq (fx : Json) (h : hasOddsBoolish fx = true) :
    hasOddsB fx = hasOddsIsTrue fx := by
  cases fx with
  | obj kvs =>
    simp only [hasOddsBoolish] at h
    simp only [hasOddsB, hasOddsIsTrue]
    cases hl : jlookup kvs "has_odds" with
    | none => simp [truthy]
    | some v =>
      rw [hl] at h
      cases v with
      | null => simp [truthy]
      | bool b => cases b <;> simp [truthy]
      | int n => simp at h
      | str s => simp at h
      | list xs => simp at h
      | obj kvs2 => simp at h
  | null => simp [hasOddsBoolish] at h
  | bool b => simp [hasOddsBoolish] at h
  | int n => simp [hasOddsBoolish] at h
  | str s => simp [hasOddsBoolish] at h
  | list xs => simp [hasOddsBoolish] at h

theorem all_boolish_isObj (fxs : List Json) (h : fxs.all hasOddsBoolish = true) :
    fxs.all isObjJson = true := by
  rw [List.all_eq_true] at h ⊢
  exact fun fx hfx => hasOddsBoolish_isObj fx (h fx hfx)

theorem filter_boolish (fxs : List Json) (h : fxs.all hasOddsBoolish = true) :
    fxs.filter hasOddsB = fxs.filter hasOddsIsTrue := by
  induction fxs with
  | nil => rfl
  | cons fx rest ih =>
    rw [List.all_cons, Bool.and_eq_true] at h
    rw [List.filter_cons, List.filter_cons, hasOddsBoolish_eq fx h.1, ih h.2]

theorem filter_false_nil {α : Type} (p : α → Bool) (l : List α)
    (h : ∀ a, a ∈ l → p a = false) : l.filter p = [] := by
  induction l with
  | nil => rfl
  | cons x rest ih =>
    rw [List.filter_cons, h x (by simp), ih (fun a ha => h a (by simp [ha]))]
    simp

/-- C8: for a round response of the recognized shape whose fixtures carry an
absent, None or boolean has_odds flag, the locator keeps exactly the
fixtures whose flag is the boolean true; in particular when no fixture has
a true flag it returns the empty list without raising. -/
theorem c8_has_odds_filter (env : Request → Except PyErr Json) (tok : String) (rid : Int)
    (fxs : List Json)
    (h : env (roundReq tok rid) = .ok (roundBody (Json.obj [("data", Json.list fxs)])))
    (hwf : fxs.all hasOddsBoolish = true) :
    get_fixtures_by_round_with_odds env tok rid = .ok (fxs.filter hasOddsIsTrue) ∧
    ((∀ fx, fx ∈ fxs → hasOddsIsTrue fx = false) →
      get_fixtures_by_round_with_odds env tok rid = .ok []) := by
  have hmain : get_fixtures_by_round_with_odds env tok rid = .ok (fxs.filter hasOddsIsTrue) := by
    cases fxs with
    | nil =>
      unfold get_fixtures_by_round_with_odds
      rw [finderGet_round, h]
      simp [roundBody, ebind, pyGet, pyGetD, jlookup, pyOr, truthy, pyIter, List.isEmpty,
        filterHasOdds]
    | cons f fs =>
      unfold get_fixtures_by_round_with_odds
      rw [finderGet_round, h]
      simp [roundBody, ebind, pyGet, pyGetD, jlookup, pyOr, truthy, pyIter, List.isEmpty]
      rw [filterHasOdds_spec _ (all_boolish_isObj _ hwf), filter_boolish _ hwf]
  refine ⟨hmain, fun hall => ?_⟩
  rw [hmain, filter_false_nil hasOddsIsTrue fxs hall]

/-- C8 sample: a round whose single fixture has has_odds false. -/
def fx8 : Json := Json.obj [("id", Json.int 1), ("has_odds", Json.bool false)]

/-- Environment answering the round request with the single false-flagged
fixture. -/
def env8 : Request → Except PyErr Json :=
  fun _ => .ok (roundBody (Json.obj [("data", Json.list [fx8])]))

/-- C8 witnessed at a round whose only fixture has has_odds false: the
result is the empty list. -/
theorem c8_has_odds_filter_witness :
    env8 (roundReq "t" 1) = .ok (roundBody (Json.obj [("data", Json.list [fx8])])) ∧
    [fx8].all hasOddsBoolish = true ∧
    get_fixtures_by_round_with_odds env8 "t" 1 = .ok [] :=
  ⟨rfl, rfl,
   (c8_has_odds_filter env8 "t" 1 [fx8] rfl rfl).2
     (by intro fx hfx; rw [List.mem_singleton] at hfx; subst hfx; rfl)⟩

/-- Value of a key of a JSON dict, None when absent or not a dict. -/
def objGet (m : Json) (k : String) : Json :=
  match m with
  | .obj kvs => (jlookup kvs k).getD .null
  | _ => .null

/-- Market dicts the filtering loop handles without raising: the name entry
is absent, a string, or a falsy value. -/
def marketOk : Json → Bool
  | .obj kvs =>
    match jlookup kvs "name" with
    | none => true
    | some (.str _) => true
    | some v => !truthy v
  | _ => false

/-- The filter the code applies: the lowercased market name contains the
literal substring corner. -/
def marketNameMatches : Json → Bool
  | .obj kvs =>
    match jlookup kvs "name" with
    | some (.str s) => occursIn "corner" (asciiLower s)
    | _ => false
  | _ => false

/-- The projection get_corner_market_ids applies to a kept market. -/
def projectMarket (m : Json) : Json :=
  Json.obj [("id", objGet m "id"), ("name", objGet m "name"),
    ("developer_name", objGet m "developer_name")]

theorem lower_or_default (s : String) :
    pyLowerJ (pyOr (Json.str s) (Json.str "")) = .ok (asciiLower s) := by
  by_cases h : s = ""
  · subst h; rfl
  · simp [pyOr, truthy, pyLowerJ, h]

theorem filterCornerMarkets_spec (ms : List Json) (hwf : ms.all marketOk = true) :
    filterCornerMarkets ms = .ok ((ms.filter marketNameMatches).map projectMarket) := by
  induction ms with
  | nil => rfl
  | cons m rest ih =>
    rw [List.all_cons, Bool.and_eq_true] at hwf
    obtain ⟨h1, h2⟩ := hwf
    cases m with
    | null => simp [marketOk] at h1
    | bool b => simp [marketOk] at h1
    | int n => simp [marketOk] at h1
    | str s => simp [marketOk] at h1
    | list xs => simp [marketOk] at h1
    | obj kvs =>
      simp only [filterCornerMarkets, pyGet, ebind_ok]
      simp only [marketOk] at h1
      cases hl : jlookup kvs "name" with
      | none =>
        have hocc : occursIn "corner" (asciiLower "") = false := by decide
        simp [pyOr, truthy, pyLowerJ, hocc, marketNameMatches, hl, List.filter_cons, ih h2]
      | some v =>
        rw [hl] at h1
        cases v with
        | str s =>
          simp only [Option.getD_some]
          rw [lower_or_default s]
          by_cases hm : occursIn "corner" (asciiLower s)
          · simp [ebind, hm, pyGet, ih h2, List.filter_cons, marketNameMatches, hl,
              projectMarket, objGet]
          · simp [ebind, hm, ih h2, List.filter_cons, marketNameMatches, hl]
        | null =>
          have hocc : occursIn "corner" (asciiLower "") = false := by decide
          simp [pyOr, truthy, pyLowerJ, hocc, marketNameMatches, hl, List.filter_cons, ih h2]
        | bool b =>
          simp only [truthy] at h1
          rw [Bool.not_eq_true'] at h1
          subst h1
          have hocc : occursIn "corner" (asciiLower "") = false := by decide
          simp [pyOr, truthy, pyLowerJ, hocc, marketNameMatches, hl, List.filter_cons, ih h2]
        | int n =>
          simp only [truthy] at h1
          have hn : n = 0 := by
            by_contra hn
            simp [hn] at h1
          subst hn
          have hocc : occursIn "corner" (asciiLower "") = false := by decide
          simp [pyOr, truthy, pyLowerJ, hocc, marketNameMatches, hl, List.filter_cons, ih h2]
        | list xs =>
          simp only [truthy] at h1
          have hx : xs = [] := by
            cases xs with
            | nil => rfl
            | cons a t => simp [List.isEmpty] at h1
          subst hx
          have hocc : occursIn "corner" (asciiLower "") = false := by decide
          simp [pyOr, truthy, pyLowerJ, hocc, marketNameMatches, hl, List.filter_cons, ih h2,
            List.isEmpty]
        | obj kvs2 =>
          simp only [truthy] at h1
          have hx : kvs2 = [] := by
            cases kvs2 with
            | nil => rfl
            | cons a t => simp [List.isEmpty] at h1
          subst hx
          have hocc : occursIn "corner" (asciiLower "") = false := by decide
          simp [pyOr, truthy, pyLowerJ, hocc, marketNameMatches, hl, List.filter_cons, ih h2,
            List.isEmpty]

/-- The request issued by get_corner_market_ids for a search term. -/
def searchReq (tok s : String) : Request :=
  ⟨ODDS_BASE ++ "/markets/search/" ++ s, [("api_token", tok)]⟩

theorem finderGet_search (env : Request → Except PyErr Json) (tok s : String) :
    finderGet env tok (ODDS_BASE ++ "/markets/search/" ++ s) [] = env (searchReq tok s) := rfl

/-- Modelled from the spec wording of the claim, for comparison with the
code: whether the market name contains the search term as a
case-insensitive substring. -/
def claimNameHasTerm (s : String) (m : Json) : Bool :=
  match objGet m "name" with
  | .str nm => occursIn (asciiLower s) (asciiLower nm)
  | _ => false

/-- Modelled from the spec wording of the claim, for comparison with the
code: exactly the markets whose name contains the search term
case-insensitively, projected the way the code projects kept markets. -/
def claimMarketFilter (s : String) (ms : List Json) : List Json :=
  (ms.filter (claimNameHasTerm s)).map projectMarket

/-- A market named Total Goals. -/
def mGoal : Json :=
  Json.obj [("id", Json.int 1), ("name", Json.str "Total Goals"), ("developer_name", Json.null)]

/-- Environment whose market search returns the single Total Goals market. -/
def envGoal : Request → Except PyErr Json :=
  fun _ => .ok (Json.obj [("data", Json.list [mGoal])])

/-- C2 counterexample: with search term goal and an upstream list holding a
market named Total Goals, the code returns the empty list although that
market name does contain the search term, so the filter is not by the
search term. -/
theorem c2_counterexample :
    get_corner_market_ids envGoal "t" "goal" = .ok [] ∧
    claimMarketFilter "goal" [mGoal] = [projectMarket mGoal] ∧
    (Except.ok ([] : List Json) : Except PyErr (List Json)) ≠ .ok [projectMarket mGoal] := by
  refine ⟨rfl, rfl, ?_⟩
  intro hcontra
  simp at hcontra

/-- C2 amended: for every search term and returned market list of handled
shape, get_corner_market_ids keeps exactly the markets whose name contains
the fixed substring corner case-insensitively, regardless of the search
term, projecting id, name and developer_name. -/
theorem c2_amended (env : Request → Except PyErr Json) (tok s : String) (ms : List Json)
    (h : env (searchReq tok s) = .ok (Json.obj [("data", Json.list ms)]))
    (hwf : ms.all marketOk = true) :
    get_corner_market_ids env tok s = .ok ((ms.filter marketNameMatches).map projectMarket) := by
  unfold get_corner_market_ids
  rw [finderGet_search, h]
  cases ms with
  | nil => simp [ebind, pyGetD, jlookup, pyOr, truthy, pyIter, filterCornerMarkets]
  | cons m rest =>
    simp [ebind, pyGetD, jlookup, pyOr, truthy, pyIter, List.isEmpty]
    exact filterCornerMarkets_spec _ hwf

/-- A market named Asian Corners Total. -/
def mAsian : Json :=
  Json.obj [("id", Json.int 5), ("name", Json.str "Asian Corners Total"),
    ("developer_name", Json.str "X")]

/-- Environment whose market search returns the Asian Corners Total and
Total Goals markets. -/
def envSearch : Request → Except PyErr Json :=
  fun _ => .ok (Json.obj [("data", Json.list [mAsian, mGoal])])

/-- C2 amended, witnessed on a list holding Asian Corners Total and Total
Goals: exactly the former is kept. -/
theorem c2_amended_witness :
    envSearch (searchReq "t" "corner") = .ok (Json.obj [("data", Json.list [mAsian, mGoal])]) ∧
    [mAsian, mGoal].all marketOk = true ∧
    [mAsian, mGoal].filter marketNameMatches = [mAsian] ∧
    get_corner_market_ids envSearch "t" "corner" =
      .ok (([mAsian, mGoal].filter marketNameMatches).map projectMarket) :=
  ⟨rfl, rfl, rfl, c2_amended envSearch "t" "corner" [mAsian, mGoal] rfl rfl⟩

/-- Participant dicts the loop handles without raising: the participant is
a dict, its meta entry is a dict or falsy, and when the meta dict is
consulted its location entry is a string or falsy. -/
def partOk : Json → Bool
  | .obj kvs =>
    match jlookup kvs "meta" with
    | some (.obj mkvs) =>
      (match jlookup mkvs "location" with
       | some (.str _) => true
       | some v => !truthy v
       | none => true)
    | some v => !truthy v
    | none => true
  | _ => false

/-- The lowered location tag the loop computes for a participant; empty when
the tag is absent or falsy. -/
def locTag : Json → String
  | .obj kvs =>
    match jlookup kvs "meta" with
    | some (.obj mkvs) =>
      (match jlookup mkvs "location" with
       | some (.str s) => asciiLower s
       | _ => "")
    | _ => ""
  | _ => ""

/-- The name entry of a participant dict, None when absent. -/
def nameOf : Json → Json
  | .obj kvs => (jlookup kvs "name").getD .null
  | _ => .null

theorem asciiLower_empty : asciiLower "" = "" := rfl

theorem pyGet_or_obj (mkvs : List (String × Json)) (k : String) :
    pyGet (pyOr (Json.obj mkvs) (Json.obj [])) k = .ok ((jlookup mkvs k).getD Json.null) := by
  cases mkvs <;> simp [pyOr, truthy, pyGet, List.isEmpty, jlookup]

theorem participantsFold_step (p : Json) (rest : List Json) (h a : Json)
    (hp : partOk p = true) :
    participantsFold (p :: rest) h a =
      if locTag p = "home" then participantsFold rest (nameOf p) a
      else if locTag p = "away" then participantsFold rest h (nameOf p)
      else participantsFold rest h a := by
  cases p with
  | null => simp [partOk] at hp
  | bool b => simp [partOk] at hp
  | int n => simp [partOk] at hp
  | str s => simp [partOk] at hp
  | list xs => simp [partOk] at hp
  | obj kvs =>
    simp only [partOk] at hp
    simp only [participantsFold]
    rw [show pyGet (Json.obj kvs) "meta" = .ok ((jlookup kvs "meta").getD Json.null) from rfl,
      ebind_ok]
    cases hm : jlookup kvs "meta" with
    | none =>
      have hloc : locTag (Json.obj kvs) = "" := by simp [locTag, hm]
      simp [pyOr, truthy, pyGet, jlookup, pyLowerJ, ebind, asciiLower_empty, hloc, nameOf]
    | some v =>
      rw [hm] at hp
      cases v with
      | obj mkvs =>
        rw [Option.getD_some, pyGet_or_obj, ebind_ok]
        cases hw : jlookup mkvs "location" with
        | none =>
          have hloc : locTag (Json.obj kvs) = "" := by simp [locTag, hm, hw]
          simp [pyOr, truthy, pyGet, pyLowerJ, ebind, asciiLower_empty, hloc, nameOf]
        | some w =>
          replace hp : (match jlookup mkvs "location" with
              | some (Json.str _) => true
              | some v => !truthy v
              | none => true) = true := hp
          rw [hw] at hp
          cases w with
          | str s =>
            have hloc : locTag (Json.obj kvs) = asciiLower s := by simp [locTag, hm, hw]
            by_cases hs : s = ""
            · subst hs
              simp [pyOr, truthy, pyGet, pyLowerJ, ebind, asciiLower_empty, hloc, nameOf]
            · simp [pyOr, truthy, pyGet, pyLowerJ, ebind, hs, hloc, nameOf]
          | null =>
            have hloc : locTag (Json.obj kvs) = "" := by simp [locTag, hm, hw]
            simp [pyOr, truthy, pyGet, pyLowerJ, ebind, asciiLower_empty, hloc, nameOf]
          | bool b =>
            simp only [truthy, Bool.not_eq_true'] at hp
            subst hp
            have hloc : locTag (Json.obj kvs) = "" := by simp [locTag, hm, hw]
            simp [pyOr, truthy, pyGet, pyLowerJ, ebind, asciiLower_empty, hloc, nameOf]
          | int n =>
            simp only [truthy, Bool.not_eq_true'] at hp
            have hloc : locTag (Json.obj kvs) = "" := by simp [locTag, hm, hw]
            simp [pyOr, truthy, pyGet, pyLowerJ, ebind, asciiLower_empty, hloc, nameOf, hp]
          | list xs =>
            simp only [truthy, Bool.not_eq_true'] at hp
            have hloc : locTag (Json.obj kvs) = "" := by simp [locTag, hm, hw]
            simp [pyOr, truthy, pyGet, pyLowerJ, ebind, asciiLower_empty, hloc, nameOf, hp]
          | obj kvs2 =>
            simp only [truthy, Bool.not_eq_true'] at hp
            have hloc : locTag (Json.obj kvs) = "" := by simp [locTag, hm, hw]
            simp [pyOr, truthy, pyGet, pyLowerJ, ebind, asciiLower_empty, hloc, nameOf, hp]
      | null =>
        have hloc : locTag (Json.obj kvs) = "" := by simp [locTag, hm]
        simp [pyOr, truthy, pyGet, jlookup, pyLowerJ, ebind, asciiLower_empty, hloc, nameOf]
      | bool b =>
        simp only [truthy, Bool.not_eq_true'] at hp
        subst hp
        have hloc : locTag (Json.obj kvs) = "" := by simp [locTag, hm]
        simp [pyOr, truthy, pyGet, jlookup, pyLowerJ, ebind, asciiLower_empty, hloc, nameOf]
      | int n =>
        simp only [truthy, Bool.not_eq_true'] at hp
        have hloc : locTag (Json.obj kvs) = "" := by simp [locTag, hm]
        simp [pyOr, truthy, pyGet, jlookup, pyLowerJ, ebind, asciiLower_empty, hloc, nameOf, hp]
      | str s =>
        simp only [truthy, Bool.not_eq_true'] at hp
        have hloc : locTag (Json.obj kvs) = "" := by simp [locTag, hm]
        simp [pyOr, truthy, pyGet, jlookup, pyLowerJ, ebind, asciiLower_empty, hloc, nameOf, hp]
      | list xs =>
        simp only [truthy, Bool.not_eq_true'] at hp
        have hloc : locTag (Json.obj kvs) = "" := by simp [locTag, hm]
        simp [pyOr, truthy, pyGet, jlookup, pyLowerJ, ebind, asciiLower_empty, hloc, nameOf, hp]

theorem lastMapGetD {α β : Type} (l : List α) (x : α) (f : α → β) (d : β) :
    (((x :: l).getLast?).map f).getD d = ((l.getLast?).map f).getD (f x) := by
  induction l generalizing x d with
  | nil => rfl
  | cons y t ih =>
    rw [List.getLast?_cons_cons, ih y]
    rw [ih y (f x)]

/-- C9: under well-formed participants, the participants loop resolves the
home name to the name of the last participant whose lowered location tag is
home (keeping the initial accumulator when there is none), and likewise for
away; participants with any other tag never overwrite either accumulator. -/
theorem c9_participants_last_wins (ps : List Json) (h0 a0 : Json)
    (hwf : ps.all partOk = true) :
    participantsFold ps h0 a0 = .ok
      ((((ps.filter (fun p => locTag p = "home")).getLast?).map nameOf).getD h0,
       (((ps.filter (fun p => locTag p = "away")).getLast?).map nameOf).getD a0) := by
  induction ps generalizing h0 a0 with
  | nil => rfl
  | cons p rest ih =>
    rw [List.all_cons, Bool.and_eq_true] at hwf
    rw [participantsFold_step p rest h0 a0 hwf.1]
    by_cases hh : locTag p = "home"
    · rw [if_pos hh, ih _ _ hwf.2]
      have hna : ¬ locTag p = "away" := by rw [hh]; decide
      rw [List.filter_cons_of_pos (by simpa using hh), List.filter_cons_of_neg (by simpa using hna)]
      rw [lastMapGetD]
    · rw [if_neg hh]
      by_cases ha : locTag p = "away"
      · rw [if_pos ha, ih _ _ hwf.2]
        rw [List.filter_cons_of_neg (by simpa using hh), List.filter_cons_of_pos (by simpa using ha)]
        rw [lastMapGetD]
      · rw [if_neg ha, ih _ _ hwf.2]
        rw [List.filter_cons_of_neg (by simpa using hh), List.filter_cons_of_neg (by simpa using ha)]

/-- C9 sample participants: two tagged home (the second wins), one tagged
away, one with an unrecognized tag and one with no meta at all. -/
def pHome1 : Json :=
  Json.obj [("name", Json.str "Alpha"), ("meta", Json.obj [("location", Json.str "home")])]

def pHome2 : Json :=
  Json.obj [("name", Json.str "Beta"), ("meta", Json.obj [("location", Json.str "HOME")])]

def pAway : Json :=
  Json.obj [("name", Json.str "Gamma"), ("meta", Json.obj [("location", Json.str "away")])]

def pOther : Json :=
  Json.obj [("name", Json.str "Delta"), ("meta", Json.obj [("location", Json.str "bench")])]

def pNoMeta : Json := Json.obj [("name", Json.str "Epsilon")]

/-- C9 witnessed on a concrete participant list: the second home-tagged
participant (with an uppercase tag) provides the home name, the away name
comes from the away participant, and the unrecognized or missing tags
change nothing. -/
theorem c9_participants_last_wins_witness :
    [pHome1, pHome2, pOther, pAway, pNoMeta].all partOk = true ∧
    participantsFold [pHome1, pHome2, pOther, pAway, pNoMeta] Json.null Json.null = .ok
      (((([pHome1, pHome2, pOther, pAway, pNoMeta].filter
            (fun p => locTag p = "home")).getLast?).map nameOf).getD Json.null,
       ((([pHome1, pHome2, pOther, pAway, pNoMeta].filter
            (fun p => locTag p = "away")).getLast?).map nameOf).getD Json.null) ∧
    (((([pHome1, pHome2, pOther, pAway, pNoMeta].filter
          (fun p => locTag p = "home")).getLast?).map nameOf).getD Json.null = Json.str "Beta" ∧
     ((([pHome1, pHome2, pOther, pAway, pNoMeta].filter
          (fun p => locTag p = "away")).getLast?).map nameOf).getD Json.null = Json.str "Gamma") :=
  ⟨rfl, c9_participants_last_wins [pHome1, pHome2, pOther, pAway, pNoMeta] Json.null Json.null rfl,
   rfl, rfl⟩

/-- The row the main loop emits for one fixture, as a total function: none
when the metadata extraction would raise or when the guarded odds fetch
yields no line, otherwise the row with the fetched line count. -/
def emittedRow (env : Request → Except PyErr Json) (tok : String)
    (mids : List Json) (fx : Json) : Option Fila :=
  match fixtureMeta fx with
  | .error _ => none
  | .ok (fid, sa, ln, hn, an) =>
    let odds := caughtOdds env tok mids fid
    if odds.isEmpty then none
    else some ⟨fid, sa, ln, hn, an, odds.length⟩

theorem fixtureMeta_shape (fx : Json) (m : Json × Json × Json × Json × Json)
    (h : fixtureMeta fx = .ok m) : pyGet fx "id" = .ok m.1 := by
  unfold fixtureMeta at h
  cases hid : pyGet fx "id" with
  | error e => rw [hid] at h; simp [ebind] at h
  | ok v =>
    rw [hid] at h
    simp only [ebind_ok, ebind_ok_iff] at h
    obtain ⟨sa, hsa, lg, hlg, pr, hpr, pd, hpd, pl, hpl, ha, hha, ln, hln, lname, hlname, hfin⟩ := h
    injection hfin with h2
    rw [← h2]

theorem rowFor_ok_emitted (env : Request → Except PyErr Json) (tok : String)
    (mids : List Json) (fx : Json) (o : Option Fila)
    (h : rowFor env tok mids fx = .ok o) : o = emittedRow env tok mids fx := by
  unfold rowFor at h
  unfold emittedRow
  cases hm : fixtureMeta fx with
  | error e => rw [hm] at h; simp [ebind] at h
  | ok m =>
    obtain ⟨fid, sa, ln, hn, an⟩ := m
    rw [hm] at h
    simp only [ebind_ok] at h
    by_cases he : (caughtOdds env tok mids fid).isEmpty
    · simp [he] at h ⊢
      exact h.symm
    · simp [he] at h ⊢
      exact h.symm

theorem emittedRow_some (env : Request → Except PyErr Json) (tok : String)
    (mids : List Json) (fx : Json) (r : Fila)
    (h : emittedRow env tok mids fx = some r) :
    pyGet fx "id" = .ok r.fixture_id ∧
    r.lineas = (caughtOdds env tok mids r.fixture_id).length ∧ 1 ≤ r.lineas := by
  unfold emittedRow at h
  cases hm : fixtureMeta fx with
  | error e => rw [hm] at h; simp at h
  | ok m =>
    obtain ⟨fid, sa, ln, hn, an⟩ := m
    rw [hm] at h
    by_cases he : (caughtOdds env tok mids fid).isEmpty
    · simp [he] at h
    · simp [he] at h
      rw [← h]
      refine ⟨fixtureMeta_shape fx _ hm, rfl, ?_⟩
      cases hodds : caughtOdds env tok mids fid with
      | nil => rw [hodds] at he; simp at he
      | cons x xs => simp

theorem build_filas_ok_cons (env : Request → Except PyErr Json) (tok : String)
    (mids : List Json) (fx : Json) (rest : List Json) (rows : List Fila)
    (h : build_filas env tok mids (fx :: rest) = .ok rows) :
    ∃ o t, rowFor env tok mids fx = .ok o ∧ build_filas env tok mids rest = .ok t ∧
      rows = (match o with | some r => r :: t | none => t) := by
  unfold build_filas at h
  cases hr : rowFor env tok mids fx with
  | error e => rw [hr] at h; simp [ebind] at h
  | ok o =>
    rw [hr] at h
    simp only [ebind_ok] at h
    cases ht : build_filas env tok mids rest with
    | error e => rw [ht] at h; simp [ebind] at h
    | ok t =>
      rw [ht] at h
      simp only [ebind_ok] at h
      exact ⟨o, t, rfl, rfl, by injection h with h2; rw [h2]⟩

theorem build_filas_filterMap (env : Request → Except PyErr Json) (tok : String)
    (mids : List Json) (fixtures : List Json) (rows : List Fila)
    (h : build_filas env tok mids fixtures = .ok rows) :
    rows = fixtures.filterMap (emittedRow env tok mids) := by
  induction fixtures generalizing rows with
  | nil =>
    unfold build_filas at h
    injection h with h2
    rw [← h2, List.filterMap_nil]
  | cons fx rest ih =>
    obtain ⟨o, t, hr, ht, hrows⟩ := build_filas_ok_cons env tok mids fx rest rows h
    rw [List.filterMap_cons, ← rowFor_ok_emitted env tok mids fx o hr]
    cases o with
    | none => rw [hrows, ih t ht]
    | some r => rw [hrows, ih t ht]

theorem build_filas_ids (env : Request → Except PyErr Json) (tok : String)
    (mids : List Json) (fixtures : List Json) (rows : List Fila)
    (h : build_filas env tok mids fixtures = .ok rows) :
    List.Sublist (rows.map Fila.fixture_id)
      (fixtures.filterMap (fun fx => (pyGet fx "id").toOption)) := by
  induction fixtures generalizing rows with
  | nil =>
    unfold build_filas at h
    injection h with h2
    rw [← h2]
    simp
  | cons fx rest ih =>
    obtain ⟨o, t, hr, ht, hrows⟩ := build_filas_ok_cons env tok mids fx rest rows h
    have hoe := rowFor_ok_emitted env tok mids fx o hr
    have hmeta : ∃ m, fixtureMeta fx = .ok m := by
      unfold rowFor at hr
      cases hm : fixtureMeta fx with
      | error e => rw [hm] at hr; simp [ebind] at hr
      | ok m => exact ⟨m, rfl⟩
    obtain ⟨m, hm⟩ := hmeta
    have hid : pyGet fx "id" = .ok m.1 := fixtureMeta_shape fx m hm
    rw [List.filterMap_cons, hid]
    simp only [Except.toOption]
    cases o with
    | none =>
      rw [hrows]
      exact List.Sublist.cons _ (ih t ht)
    | some r =>
      have hrid : r.fixture_id = m.1 := by
        have := (emittedRow_some env tok mids fx r hoe.symm).1
        rw [hid] at this
        injection this with h2
        exact h2.symm
      rw [hrows, List.map_cons, hrid]
      exact List.Sublist.cons₂ _ (ih t ht)

/-- One odds line as returned by the per-market endpoint. -/
def oddsLine1 : Json := Json.obj [("label", Json.str "Over 9.5")]

/-- Environment whose every odds request returns one odds line. -/
def envOdds1 : Request → Except PyErr Json :=
  fun _ => .ok (Json.obj [("data", Json.list [oddsLine1])])

/-- Environment whose every request fails. -/
def envErr : Request → Except PyErr Json :=
  fun _ => .error .runtimeError

/-- A fixture with id 1. -/
def fx4 : Json := Json.obj [("id", Json.int 1), ("starting_at", Json.str "2024-05-01T10:00")]

/-- A fixture with id 2. -/
def fx6 : Json := Json.obj [("id", Json.int 2), ("starting_at", Json.str "2024-05-01T09:00")]

/-- A corner-market list with the single market id 7. -/
def cms4 : List Json :=
  [Json.obj [("id", Json.int 7), ("name", Json.str "Corners Over Under"),
    ("developer_name", Json.null)]]

/-- The row built for fx4 under envOdds1 and market 7. -/
def fila4 : Fila :=
  ⟨Json.int 1, Json.str "2024-05-01T10:00", Json.null, Json.null, Json.null, 1⟩

/-- C4 counterexample: when the input fixture collection repeats the same
fixture, the aggregator emits one row per occurrence, so the output carries
a duplicate fixture id (the sort can only permute two equal rows, so the
identity stands for it). -/
theorem c4_counterexample :
    build_corners_dataframe (fun l => l) envOdds1 "t" [fx4, fx4] cms4 = .ok [fila4, fila4] ∧
    ¬ ([fila4, fila4].map Fila.fixture_id).Nodup := by
  refine ⟨rfl, ?_⟩
  intro hp
  simp [List.nodup_cons] at hp

/-- C4 amended: every output row carries the id of some input fixture, and
the output ids are duplicate-free whenever the extractable input fixture
ids are duplicate-free; duplicates can arise only from duplicated input
ids.  The sort is any permutation of the row list. -/
theorem c4_amended (srt : List Fila → List Fila) (env : Request → Except PyErr Json)
    (tok : String) (fixtures cms : List Json) (rows : List Fila)
    (hs : ∀ l, List.Perm (srt l) l)
    (h : build_corners_dataframe srt env tok fixtures cms = .ok rows) :
    (∀ r, r ∈ rows → ∃ fx, fx ∈ fixtures ∧ pyGet fx "id" = .ok r.fixture_id) ∧
    ((fixtures.filterMap (fun fx => (pyGet fx "id").toOption)).Nodup →
      (rows.map Fila.fixture_id).Nodup) := by
  unfold build_corners_dataframe at h
  cases hmk : mkMarketIds cms with
  | error e => rw [hmk] at h; simp [ebind] at h
  | ok mids =>
    rw [hmk] at h
    simp only [ebind_ok] at h
    cases hbf : build_filas env tok mids fixtures with
    | error e => rw [hbf] at h; simp [ebind] at h
    | ok filas =>
      rw [hbf] at h
      simp only [ebind_ok] at h
      by_cases hemp : filas.isEmpty
      · rw [if_pos hemp] at h
        injection h with h2
        rw [← h2]
        exact ⟨by simp, by simp⟩
      · rw [if_neg hemp] at h
        injection h with h2
        have hperm : List.Perm rows filas := by rw [← h2]; exact hs filas
        have hfm := build_filas_filterMap env tok mids fixtures filas hbf
        refine ⟨?_, ?_⟩
        · intro r hr
          have hrf : r ∈ filas := hperm.mem_iff.mp hr
          rw [hfm] at hrf
          obtain ⟨fx, hfx, hemit⟩ := List.mem_filterMap.mp hrf
          exact ⟨fx, hfx, (emittedRow_some env tok mids fx r hemit).1⟩
        · intro hnd
          have hsub := build_filas_ids env tok mids fixtures filas hbf
          have hnd2 : (filas.map Fila.fixture_id).Nodup := List.Nodup.sublist hsub hnd
          exact ((hperm.map Fila.fixture_id).nodup_iff).mpr hnd2

/-- C4 amended, witnessed on a single-fixture input with the identity as
the permutation. -/
theorem c4_amended_witness :
    (∀ l : List Fila, List.Perm ((fun l => l) l) l) ∧
    build_corners_dataframe (fun l => l) envOdds1 "t" [fx4] cms4 = .ok [fila4] ∧
    ((∀ r, r ∈ [fila4] → ∃ fx, fx ∈ [fx4] ∧ pyGet fx "id" = .ok r.fixture_id) ∧
     (([fx4].filterMap (fun fx => (pyGet fx "id").toOption)).Nodup →
       ([fila4].map Fila.fixture_id).Nodup)) :=
  ⟨fun l => List.Perm.refl l, rfl,
   c4_amended (fun l => l) envOdds1 "t" [fx4] cms4 [fila4] (fun l => List.Perm.refl l) rfl⟩

/-- C5: the rows of the main loop are exactly the emitted rows of the input
fixtures in order; every emitted row has at least one corner line; and for
a fixture whose metadata extraction succeeds, a row is emitted if and only
if its guarded odds fetch yields at least one line, the row then carrying
exactly that line count. -/
theorem c5_rows_iff_odds (env : Request → Except PyErr Json) (tok : String)
    (mids : List Json) (fixtures : List Json) (rows : List Fila)
    (h : build_filas env tok mids fixtures = .ok rows) :
    rows = fixtures.filterMap (emittedRow env tok mids) ∧
    (∀ r, r ∈ rows → 1 ≤ r.lineas) ∧
    (∀ fx fid sa ln hn an, fx ∈ fixtures → fixtureMeta fx = .ok (fid, sa, ln, hn, an) →
      (((emittedRow env tok mids fx).isSome ↔ 1 ≤ (caughtOdds env tok mids fid).length) ∧
       (∀ r, emittedRow env tok mids fx = some r →
         r.lineas = (caughtOdds env tok mids fid).length))) := by
  have hfm := build_filas_filterMap env tok mids fixtures rows h
  refine ⟨hfm, ?_, ?_⟩
  · intro r hr
    rw [hfm] at hr
    obtain ⟨fx, hfx, hemit⟩ := List.mem_filterMap.mp hr
    exact (emittedRow_some env tok mids fx r hemit).2.2
  · intro fx fid sa ln hn an hfx hm
    have hrw : emittedRow env tok mids fx =
        (if (caughtOdds env tok mids fid).isEmpty then none
         else some ⟨fid, sa, ln, hn, an, (caughtOdds env tok mids fid).length⟩) := by
      unfold emittedRow
      rw [hm]
    constructor
    · rw [hrw]
      cases hodds : caughtOdds env tok mids fid with
      | nil => simp
      | cons x xs => simp
    · intro r hemit
      rw [hrw] at hemit
      cases hodds : caughtOdds env tok mids fid with
      | nil => rw [hodds] at hemit; simp at hemit
      | cons x xs =>
        rw [hodds] at hemit
        simp at hemit
        rw [← hemit]
        simp

/-- C5 witnessed on a single fixture whose odds fetch returns one line. -/
theorem c5_rows_iff_odds_witness :
    build_filas envOdds1 "t" [Json.int 7] [fx4] = .ok [fila4] ∧
    ([fila4] = [fx4].filterMap (emittedRow envOdds1 "t" [Json.int 7]) ∧
     (∀ r, r ∈ [fila4] → 1 ≤ r.lineas) ∧
     (∀ fx fid sa ln hn an, fx ∈ [fx4] → fixtureMeta fx = .ok (fid, sa, ln, hn, an) →
       (((emittedRow envOdds1 "t" [Json.int 7] fx).isSome ↔
          1 ≤ (caughtOdds envOdds1 "t" [Json.int 7] fid).length) ∧
        (∀ r, emittedRow envOdds1 "t" [Json.int 7] fx = some r →
          r.lineas = (caughtOdds envOdds1 "t" [Json.int 7] fid).length)))) :=
  ⟨rfl, c5_rows_iff_odds envOdds1 "t" [Json.int 7] [fx4] [fila4] rfl⟩

theorem caughtOdds_of_error (env : Request → Except PyErr Json) (tok : String)
    (mids : List Json) (fid : Json) (e : PyErr)
    (hf : (get_corner_odds_for_fixture env tok fid mids).2 = .error e) :
    caughtOdds env tok mids fid = [] := by
  unfold caughtOdds
  rw [hf]

theorem rowFor_none_of_fetch_error (env : Request → Except PyErr Json) (tok : String)
    (mids : List Json) (fx fid sa ln hn an : Json) (e : PyErr)
    (hm : fixtureMeta fx = .ok (fid, sa, ln, hn, an))
    (hf : (get_corner_odds_for_fixture env tok fid mids).2 = .error e) :
    rowFor env tok mids fx = .ok none := by
  unfold rowFor
  rw [hm, ebind_ok]
  simp [caughtOdds_of_error env tok mids fid e hf]

theorem build_filas_cons_none (env : Request → Except PyErr Json) (tok : String)
    (mids : List Json) (fx : Json) (rest : List Json)
    (h : rowFor env tok mids fx = .ok none) :
    build_filas env tok mids (fx :: rest) = build_filas env tok mids rest := by
  have hstep : build_filas env tok mids (fx :: rest) =
      ebind (rowFor env tok mids fx) (fun o =>
        ebind (build_filas env tok mids rest) (fun t =>
          .ok (match o with | some r => r :: t | none => t))) := rfl
  rw [hstep, h, ebind_ok]
  cases hb : build_filas env tok mids rest <;> simp [ebind]

/-- C6: a fixture whose per-fixture odds fetch raises (while its metadata
extraction succeeds) produces no row at all, and the batch result over any
surrounding fixtures equals the result with that fixture removed: the
failure neither aborts later fixtures nor surfaces to the caller. -/
theorem c6_fetch_failure_isolated (env : Request → Except PyErr Json) (tok : String)
    (mids : List Json) (pre post : List Json) (fx0 fid sa ln hn an : Json) (e : PyErr)
    (hm : fixtureMeta fx0 = .ok (fid, sa, ln, hn, an))
    (hf : (get_corner_odds_for_fixture env tok fid mids).2 = .error e) :
    rowFor env tok mids fx0 = .ok none ∧
    build_filas env tok mids (pre ++ fx0 :: post) = build_filas env tok mids (pre ++ post) ∧
    (∀ (srt : List Fila → List Fila) (cms : List Json), mkMarketIds cms = .ok mids →
      build_corners_dataframe srt env tok (pre ++ fx0 :: post) cms =
        build_corners_dataframe srt env tok (pre ++ post) cms) := by
  have hnone := rowFor_none_of_fetch_error env tok mids fx0 fid sa ln hn an e hm hf
  have hbf : build_filas env tok mids (pre ++ fx0 :: post) =
      build_filas env tok mids (pre ++ post) := by
    induction pre with
    | nil => simpa using build_filas_cons_none env tok mids fx0 post hnone
    | cons p t ih =>
      simp only [List.cons_append, build_filas, List.append_eq]
      simp only [ih]
  refine ⟨hnone, hbf, ?_⟩
  intro srt cms hmk
  unfold build_corners_dataframe
  rw [hmk, ebind_ok, ebind_ok, hbf]

/-- C6 witnessed with a failing environment: the failing fixture vanishes
and the batch over the remaining fixture equals the batch without it. -/
theorem c6_fetch_failure_isolated_witness :
    fixtureMeta fx4 = .ok (Json.int 1, Json.str "2024-05-01T10:00", Json.null, Json.null,
      Json.null) ∧
    (get_corner_odds_for_fixture envErr "t" (Json.int 1) [Json.int 7]).2 =
      .error .runtimeError ∧
    (rowFor envErr "t" [Json.int 7] fx4 = .ok none ∧
     build_filas envErr "t" [Json.int 7] ([] ++ fx4 :: [fx6]) =
       build_filas envErr "t" [Json.int 7] ([] ++ [fx6]) ∧
     build_corners_dataframe (fun l => l) envErr "t" ([] ++ fx4 :: [fx6]) cms4 =
       build_corners_dataframe (fun l => l) envErr "t" ([] ++ [fx6]) cms4) :=
  ⟨rfl, rfl,
   (c6_fetch_failure_isolated envErr "t" [Json.int 7] [] [fx6] fx4 (Json.int 1)
      (Json.str "2024-05-01T10:00") Json.null Json.null Json.null .runtimeError rfl rfl).1,
   (c6_fetch_failure_isolated envErr "t" [Json.int 7] [] [fx6] fx4 (Json.int 1)
      (Json.str "2024-05-01T10:00") Json.null Json.null Json.null .runtimeError rfl rfl).2.1,
   (c6_fetch_failure_isolated envErr "t" [Json.int 7] [] [fx6] fx4 (Json.int 1)
      (Json.str "2024-05-01T10:00") Json.null Json.null Json.null .runtimeError rfl rfl).2.2
     (fun l => l) cms4 rfl⟩
